import Mathlib

/-!
Verification of the Gemini proxy server.

The repository holds two variants of the same `server.js` file:
`src/server.js` (modelled below in namespace `ServerJs`) and
`src/unnamed/part_000` (modelled in namespace `Part000`).  Both implement a
single Express route `POST /api/gemini` that validates the request body,
builds one upstream `generateContent` call and translates its outcome into a
JSON response.  The embedding below gives JavaScript truthiness, the string
operations used by the error translation, the request/response data model,
the two handler variants, the startup guard and the rate-limiter gate.
-/

/-- JavaScript truthiness of an optional string value: `undefined` and the
empty string are falsy, every other string is truthy. -/
def truthyStr : Option String → Bool
  | none => false
  | some s => !(s == "")

/-- JavaScript truthiness of an optional numeric value: `undefined` and `0`
are falsy (NaN is not modelled). -/
def truthyNum : Option Rat → Bool
  | none => false
  | some q => !(q == 0)

/-- JavaScript `x || d` for an optional string `x`: `undefined` and `""` fall
through to the default. -/
def jsOrOptStr (x : Option String) (d : String) : String :=
  match x with
  | none => d
  | some s => if s == "" then d else s

/-- JavaScript `x || d` for a string `x`: `""` falls through to the default. -/
def jsOrStr (x d : String) : String :=
  if x == "" then d else x

/-- JavaScript `x || d` for an optional numeric `x`: `undefined` and `0` fall
through to the default. -/
def jsOrNum (x : Option Rat) (d : Rat) : Rat :=
  match x with
  | none => d
  | some q => if q == 0 then d else q

/-- Rendering of a JavaScript value into a template literal: `undefined`
prints as the string `undefined`. -/
def jsTemplate : Option String → String
  | none => "undefined"
  | some s => s

/-- Whether `pat` occurs at the start of `l`. -/
def isPrefixChars : List Char → List Char → Bool
  | [], _ => true
  | _ :: _, [] => false
  | a :: as, b :: bs => a == b && isPrefixChars as bs

/-- Whether `pat` occurs anywhere inside `l`. -/
def containsChars (pat : List Char) : List Char → Bool
  | [] => isPrefixChars pat []
  | b :: bs => isPrefixChars pat (b :: bs) || containsChars pat bs

/-- JavaScript `s.includes(pat)`. -/
def jsIncludes (s pat : String) : Bool :=
  containsChars pat.toList s.toList

/-- Characters before the first occurrence of `sep`; the whole list when
`sep` does not occur.  Models `s.split(sep)[0]` for a nonempty `sep`. -/
def splitFirstChars (sep : List Char) : List Char → List Char
  | [] => []
  | b :: bs =>
    if isPrefixChars sep (b :: bs) then []
    else b :: splitFirstChars sep bs

/-- JavaScript `s.split(sep)[0]` for the nonempty separator used by the
code. -/
def jsSplitFirst (s sep : String) : String :=
  String.mk (splitFirstChars sep.toList s.toList)

/-- Whitespace characters removed by `String.prototype.trim`. -/
def isJsWhitespace (c : Char) : Bool :=
  c == ' ' || c == '\t' || c == '\n' || c == '\r' || c == '\x0b' || c == '\x0c'

/-- Drop leading whitespace characters. -/
def dropLeadingWs : List Char → List Char
  | [] => []
  | c :: rest => if isJsWhitespace c then dropLeadingWs rest else c :: rest

/-- JavaScript `s.trim()`: drop leading and trailing whitespace. -/
def jsTrim (s : String) : String :=
  String.mk (((dropLeadingWs s.toList).reverse |> dropLeadingWs).reverse)

/-- Client options object `{ temperature?, maxOutputTokens? }`. -/
structure GenOptions where
  temperature : Option Rat
  maxOutputTokens : Option Rat
  deriving Repr, DecidableEq

/-- Inbound request body `{ prompt, model, isJson, options }`.  A missing
`prompt` or `model` is `none`; `isJson` is `true` exactly when the client
sent a truthy value. -/
structure GenerationRequest where
  prompt : Option String
  model : Option String
  isJson : Bool
  options : Option GenOptions
  deriving Repr, DecidableEq

/-- One safety-setting entry `{ category, threshold }`. -/
structure SafetySetting where
  category : String
  threshold : String
  deriving Repr, DecidableEq

/-- Generation configuration passed to `generateContent`. -/
structure GenConfig where
  temperature : Rat
  maxOutputTokens : Rat
  responseMimeType : String
  safetySettings : List SafetySetting
  deriving Repr, DecidableEq

/-- One part `{ text }` of a content entry. -/
structure ContentPart where
  text : String
  deriving Repr, DecidableEq

/-- One content entry `{ role, parts }`. -/
structure Content where
  role : String
  parts : List ContentPart
  deriving Repr, DecidableEq

/-- The argument object of the single upstream `generateContent` call. -/
structure UpstreamCall where
  model : String
  contents : List Content
  config : GenConfig
  deriving Repr, DecidableEq

/-- Successful upstream response: the generated text. -/
structure UpstreamResponse where
  text : String
  deriving Repr, DecidableEq

/-- Shape `error.response.data.error` probed by the catch block of
`src/server.js`. -/
structure ErrDetail where
  message : Option String
  deriving Repr, DecidableEq

/-- Shape `error.response.data`; its `error` field may be absent. -/
structure ErrData where
  error : Option ErrDetail
  deriving Repr, DecidableEq

/-- Shape `error.response` with optional HTTP `status` and `data`. -/
structure ErrResponse where
  status : Option Nat
  data : Option ErrData
  deriving Repr, DecidableEq

/-- A JavaScript error value thrown by the upstream call: its `message` is
`none` when the thrown value carries no string message, and `response` is the
optional axios-style payload probed by `src/server.js`. -/
structure JsError where
  message : Option String
  response : Option ErrResponse
  deriving Repr, DecidableEq

/-- JSON response body; each field is present (`some`) or absent (`none`). -/
structure ResponseBody where
  text : Option String
  error : Option String
  message : Option String
  code : Option Nat
  deriving Repr, DecidableEq

/-- An HTTP response: status code plus JSON body. -/
structure JsonResponse where
  status : Nat
  body : ResponseBody
  deriving Repr, DecidableEq

/-- The 400 body `{ error: "Missing prompt in request body." }`. -/
def missingPromptBody : ResponseBody :=
  ⟨none, some "Missing prompt in request body.", none, none⟩

/-- Default model identifier `gemini-2.5-flash`. -/
def defaultModel : String := "gemini-2.5-flash"

/-- Configuration record of the `express-rate-limit` middleware. -/
structure RateLimitConfig where
  windowMs : Nat
  max : Nat
  message : ResponseBody
  deriving Repr, DecidableEq

/-- Modelled from the spec: the internal bookkeeping of the external
`express-rate-limit` collaborator is not part of this repository; per the
spec it enforces at most `max` requests per source IP per fixed window and
rejects a request whose count of prior same-window requests from that IP has
reached the quota, with status 429 and the configured message body. -/
def rateLimitGate (cfg : RateLimitConfig) (priorRequestsInWindow : Nat) :
    Option JsonResponse :=
  if cfg.max ≤ priorRequestsInWindow then some ⟨429, cfg.message⟩ else none

namespace ServerJs

/-- Safety settings of `src/server.js`: the harassment category only. -/
def safetySettings : List SafetySetting :=
  [⟨"HARM_CATEGORY_HARASSMENT", "BLOCK_MEDIUM_AND_ABOVE"⟩]

/-- The `generateContent` argument built by `src/server.js`: temperature is
`0.2` when `isJson` else `0.7`, `maxOutputTokens` is fixed at `2048`, and
client `options` are not consulted. -/
def buildCall (req : GenerationRequest) : UpstreamCall :=
  ⟨jsOrOptStr req.model defaultModel,
   [⟨"user", [⟨req.prompt.getD ""⟩]⟩],
   ⟨if req.isJson then 0.2 else 0.7,
    2048,
    if req.isJson then "application/json" else "text/plain",
    safetySettings⟩⟩

/-- Catch block of `src/server.js`: status from `error.response.status` when
truthy else 500; message from `error.response.data.error.message` when
`data` is truthy (throwing a TypeError when `data.error` is absent), else
the fixed `Internal Server Error`. -/
def catchHandler (e : JsError) : Except String JsonResponse :=
  let statusCode : Nat :=
    match e.response with
    | some r =>
      match r.status with
      | some n => if n == 0 then 500 else n
      | none => 500
    | none => 500
  match e.response with
  | some r =>
    match r.data with
    | some d =>
      match d.error with
      | some detail =>
        Except.ok ⟨statusCode,
          ⟨none,
           some ("Failed to call Gemini API: " ++ jsTemplate detail.message),
           detail.message,
           some statusCode⟩⟩
      | none => Except.error "TypeError: cannot read message of undefined"
    | none =>
      Except.ok ⟨statusCode,
        ⟨none, some "Failed to call Gemini API: Internal Server Error",
         some "Internal Server Error", some statusCode⟩⟩
  | none =>
    Except.ok ⟨statusCode,
      ⟨none, some "Failed to call Gemini API: Internal Server Error",
       some "Internal Server Error", some statusCode⟩⟩

/-- The `POST /api/gemini` handler of `src/server.js`.  Returns the upstream
call it made (if any) and either the JSON response sent or, as
`Except.error`, a runtime TypeError thrown past the handler boundary. -/
def handleGemini (req : GenerationRequest)
    (api : UpstreamCall → Except JsError UpstreamResponse) :
    Option UpstreamCall × Except String JsonResponse :=
  if truthyStr req.prompt then
    let call := buildCall req
    match api call with
    | Except.ok resp =>
      (some call, Except.ok ⟨200, ⟨some resp.text, none, none, none⟩⟩)
    | Except.error e => (some call, catchHandler e)
  else
    (none, Except.ok ⟨400, missingPromptBody⟩)

/-- Rate-limiter configuration of `src/server.js`. -/
def apiLimiter : RateLimitConfig :=
  ⟨15 * 60 * 1000, 100,
   ⟨none, some "Too many requests, please try again later.", none, none⟩⟩

/-- The route with the rate limiter applied in front of the handler. -/
def gatedHandle (priorRequestsInWindow : Nat) (req : GenerationRequest)
    (api : UpstreamCall → Except JsError UpstreamResponse) :
    Option UpstreamCall × Except String JsonResponse :=
  match rateLimitGate apiLimiter priorRequestsInWindow with
  | some r => (none, Except.ok r)
  | none => handleGemini req api

end ServerJs

namespace Part000

/-- Safety settings of `src/unnamed/part_000`: harassment and dangerous
content. -/
def safetySettings : List SafetySetting :=
  [⟨"HARM_CATEGORY_HARASSMENT", "BLOCK_MEDIUM_AND_ABOVE"⟩,
   ⟨"HARM_CATEGORY_DANGEROUS_CONTENT", "BLOCK_MEDIUM_AND_ABOVE"⟩]

/-- The `generateContent` argument built by `src/unnamed/part_000`:
`options?.temperature || (isJson ? 0.2 : 0.7)` and
`options?.maxOutputTokens || 2048`. -/
def buildCall (req : GenerationRequest) : UpstreamCall :=
  ⟨jsOrOptStr req.model defaultModel,
   [⟨"user", [⟨req.prompt.getD ""⟩]⟩],
   ⟨jsOrNum (req.options.bind GenOptions.temperature)
      (if req.isJson then 0.2 else 0.7),
    jsOrNum (req.options.bind GenOptions.maxOutputTokens) 2048,
    if req.isJson then "application/json" else "text/plain",
    safetySettings⟩⟩

/-- Catch block of `src/unnamed/part_000`: when `error.message` contains
`API_KEY_INVALID` the message is the fixed sanitized string, else the part
of `error.message` before `at GoogleGenAI`, trimmed, falling back to
`Internal Server Error`; status and `code` are always 500.  Accessing
`includes` on a missing `message` throws a TypeError. -/
def catchHandler (e : JsError) : Except String JsonResponse :=
  match e.message with
  | none => Except.error "TypeError: cannot read includes of undefined"
  | some m =>
    let apiErrorMessage :=
      if jsIncludes m "API_KEY_INVALID" then
        "API Key is invalid or not authorized."
      else
        jsOrStr (jsTrim (jsSplitFirst m "at GoogleGenAI")) "Internal Server Error"
    Except.ok ⟨500,
      ⟨none, some ("Failed to call Gemini API: " ++ apiErrorMessage),
       none, some 500⟩⟩

/-- The `POST /api/gemini` handler of `src/unnamed/part_000`. -/
def handleGemini (req : GenerationRequest)
    (api : UpstreamCall → Except JsError UpstreamResponse) :
    Option UpstreamCall × Except String JsonResponse :=
  if truthyStr req.prompt then
    let call := buildCall req
    match api call with
    | Except.ok resp =>
      (some call, Except.ok ⟨200, ⟨some resp.text, none, none, none⟩⟩)
    | Except.error e => (some call, catchHandler e)
  else
    (none, Except.ok ⟨400, missingPromptBody⟩)

/-- Rate-limiter configuration of `src/unnamed/part_000`; its message text
differs from the `src/server.js` one. -/
def apiLimiter : RateLimitConfig :=
  ⟨15 * 60 * 1000, 100,
   ⟨none,
    some "Too many requests, please try again later. (Proxy Rate Limit)",
    none, none⟩⟩

/-- The route with the rate limiter applied in front of the handler. -/
def gatedHandle (priorRequestsInWindow : Nat) (req : GenerationRequest)
    (api : UpstreamCall → Except JsError UpstreamResponse) :
    Option UpstreamCall × Except String JsonResponse :=
  match rateLimitGate apiLimiter priorRequestsInWindow with
  | some r => (none, Except.ok r)
  | none => handleGemini req api

end Part000

/-- Process environment at startup. -/
structure ProcessEnv where
  port : Option String
  geminiApiKey : Option String
  deriving Repr, DecidableEq

/-- Outcome of process start: fatal exit with a code and diagnostics, or
listening on a port. -/
inductive StartOutcome where
  | exit (code : Nat) (diagnostics : List String)
  | listen (port : String)
  deriving Repr, DecidableEq

/-- Diagnostic lines printed when the credential is missing. -/
def fatalDiagnostics : List String :=
  ["FATAL: GEMINI_API_KEY environment variable is not set.",
   "Please set the key and restart: export GEMINI_API_KEY=\"YOUR_API_KEY\""]

/-- Startup guard shared by both variants: with a falsy `GEMINI_API_KEY`
the process prints the diagnostics and exits with code 1 before listening;
otherwise it listens on `PORT || 3000`. -/
def startup (env : ProcessEnv) : StartOutcome :=
  if truthyStr env.geminiApiKey then
    StartOutcome.listen (jsOrOptStr env.port "3000")
  else
    StartOutcome.exit 1 fatalDiagnostics

/-- Whether a start outcome bound a listening port. -/
def StartOutcome.isListening : StartOutcome → Bool
  | StartOutcome.listen _ => true
  | StartOutcome.exit _ _ => false

/-! ## Helper lemmas and fixed test inputs -/

/-- A stub upstream API that always succeeds with the text `ok`. -/
def stubApi : UpstreamCall → Except JsError UpstreamResponse :=
  fun _ => Except.ok ⟨"ok"⟩

/-- A request with a non-empty prompt and no overrides. -/
def reqHello : GenerationRequest := ⟨some "hello", none, false, none⟩

/-- A request supplying `options.temperature = 0.9`. -/
def reqTemp09 : GenerationRequest :=
  ⟨some "hello", none, false, some ⟨some 0.9, none⟩⟩

/-- A request supplying `options.maxOutputTokens = 1000`. -/
def reqTok1000 : GenerationRequest :=
  ⟨some "hello", none, false, some ⟨none, some 1000⟩⟩

/-- A request supplying both numeric options as `0`. -/
def reqZeroOptions : GenerationRequest :=
  ⟨some "hello", none, false, some ⟨some 0, some 0⟩⟩

/-- An upstream error whose message marks an invalid API key. -/
def invalidKeyErr : JsError :=
  ⟨some "API key not valid. Please pass a valid API key. API_KEY_INVALID", none⟩

/-- An upstream API that always fails with `invalidKeyErr`. -/
def apiInvalidKey : UpstreamCall → Except JsError UpstreamResponse :=
  fun _ => Except.error invalidKeyErr

/-- An upstream error exposing HTTP status 404 via `error.response.status`. -/
def statusErr : JsError := ⟨some "Not Found", some ⟨some 404, none⟩⟩

/-- An upstream API that always fails with `statusErr`. -/
def apiStatusErr : UpstreamCall → Except JsError UpstreamResponse :=
  fun _ => Except.error statusErr

/-- An upstream error whose `response.data` is truthy but lacks the `error`
field probed by the `src/server.js` catch block. -/
def badShapeErr : JsError := ⟨some "boom", some ⟨none, some ⟨none⟩⟩⟩

/-- An upstream API that always fails with `badShapeErr`. -/
def apiBadShape : UpstreamCall → Except JsError UpstreamResponse :=
  fun _ => Except.error badShapeErr

/-- The sanitized error body produced by `src/unnamed/part_000` for invalid
API key failures. -/
def sanitizedKeyBody : ResponseBody :=
  ⟨none, some "Failed to call Gemini API: API Key is invalid or not authorized.",
   none, some 500⟩

/-- Shape condition under which the `src/server.js` catch block does not
itself throw: whenever `response.data` is present, `data.error` is too. -/
def goodShapeA (e : JsError) : Bool :=
  match e.response with
  | some r =>
    match r.data with
    | some d => d.error.isSome
    | none => true
  | none => true

/-- Shape condition under which the `src/unnamed/part_000` catch block does
not itself throw: the error carries a string `message`. -/
def goodShapeB (e : JsError) : Bool := e.message.isSome

/-- Whether a handler result sent exactly one JSON response which is either
a result body (`text` present) or an error body (`error` present), never
both and never neither. -/
def sendsOneResponse (result : Option UpstreamCall × Except String JsonResponse) : Bool :=
  match result.2 with
  | Except.ok r => r.body.text.isSome != r.body.error.isSome
  | Except.error _ => false

/-- Status of the response sent, when one was sent. -/
def respStatus (result : Option UpstreamCall × Except String JsonResponse) : Option Nat :=
  match result.2 with
  | Except.ok r => some r.status
  | Except.error _ => none

/-- Value of the `code` field of the body sent, when one was sent. -/
def respCode (result : Option UpstreamCall × Except String JsonResponse) : Option Nat :=
  match result.2 with
  | Except.ok r => r.body.code
  | Except.error _ => none

/-- Whether `error.response && error.response.status` is truthy. -/
def statusTruthy (e : JsError) : Bool :=
  match e.response with
  | some r =>
    match r.status with
    | some n => !(n == 0)
    | none => false
  | none => false

lemma handleGemini_fst_serverJs (req : GenerationRequest)
    (api : UpstreamCall → Except JsError UpstreamResponse)
    (hp : truthyStr req.prompt = true) :
    (ServerJs.handleGemini req api).1 = some (ServerJs.buildCall req) := by
  unfold ServerJs.handleGemini
  rw [hp]
  simp only [if_true]
  cases api (ServerJs.buildCall req) <;> rfl

lemma handleGemini_fst_part000 (req : GenerationRequest)
    (api : UpstreamCall → Except JsError UpstreamResponse)
    (hp : truthyStr req.prompt = true) :
    (Part000.handleGemini req api).1 = some (Part000.buildCall req) := by
  unfold Part000.handleGemini
  rw [hp]
  simp only [if_true]
  cases api (Part000.buildCall req) <;> rfl

lemma mem_of_isPrefixChars :
    ∀ (p l : List Char), isPrefixChars p l = true → ∀ a ∈ p, a ∈ l := by
  intro p
  induction p with
  | nil => intro l _ a ha; cases ha
  | cons x xs ih =>
    intro l h a ha
    cases l with
    | nil => simp [isPrefixChars] at h
    | cons y ys =>
      simp only [isPrefixChars, Bool.and_eq_true, beq_iff_eq] at h
      rcases List.mem_cons.mp ha with rfl | ha
      · exact List.mem_cons.mpr (Or.inl h.1)
      · exact List.mem_cons_of_mem _ (ih ys h.2 a ha)

lemma mem_of_containsChars :
    ∀ (p l : List Char), containsChars p l = true → ∀ a ∈ p, a ∈ l := by
  intro p l
  induction l with
  | nil =>
    intro h a ha
    cases p with
    | nil => cases ha
    | cons x xs => simp [containsChars, isPrefixChars] at h
  | cons y ys ih =>
    intro h a ha
    simp only [containsChars, Bool.or_eq_true] at h
    rcases h with h | h
    · exact mem_of_isPrefixChars p (y :: ys) h a ha
    · exact List.mem_cons_of_mem _ (ih h a ha)

/-! ## Claims -/

/-- C1: for every request whose prompt is absent or empty, both handler
variants respond with status 400 and exactly the body
`{ error: "Missing prompt in request body." }`, and no upstream call is
made. -/
theorem missing_prompt_rejected (req : GenerationRequest)
    (apiA apiB : UpstreamCall → Except JsError UpstreamResponse)
    (h : truthyStr req.prompt = false) :
    ServerJs.handleGemini req apiA = (none, Except.ok ⟨400, missingPromptBody⟩)
    ∧ Part000.handleGemini req apiB = (none, Except.ok ⟨400, missingPromptBody⟩)
    ∧ missingPromptBody
      = ⟨none, some "Missing prompt in request body.", none, none⟩ := by
  refine ⟨?_, ?_, rfl⟩
  · unfold ServerJs.handleGemini
    rw [h]
    rfl
  · unfold Part000.handleGemini
    rw [h]
    rfl

/-- Witness for C1 at the request whose prompt is the empty string. -/
theorem missing_prompt_rejected_witness :
    truthyStr (GenerationRequest.mk (some "") none false none).prompt = false
    ∧ ServerJs.handleGemini ⟨some "", none, false, none⟩ stubApi
      = (none, Except.ok ⟨400, missingPromptBody⟩)
    ∧ Part000.handleGemini ⟨some "", none, false, none⟩ stubApi
      = (none, Except.ok ⟨400, missingPromptBody⟩) := by
  have h := missing_prompt_rejected ⟨some "", none, false, none⟩ stubApi stubApi
    (by decide)
  exact ⟨by decide, h.1, h.2.1⟩

/-- C2 counterexample: the `src/server.js` variant ignores client options,
so a request with `options.temperature = 0.9` and `isJson` false is passed
upstream with temperature `0.7`, not `0.9`. -/
theorem temperature_override_counterexample :
    reqTemp09.options.bind GenOptions.temperature = some 0.9
    ∧ ((ServerJs.handleGemini reqTemp09 stubApi).1).map
        (fun c => c.config.temperature) = some 0.7
    ∧ (0.7 : Rat) ≠ 0.9 :=
  ⟨rfl, rfl, by norm_num⟩

/-- C2 (amended): in the `src/unnamed/part_000` variant the effective
temperature is the client `options.temperature` when present and truthy and
otherwise `0.2` when `isJson` else `0.7`; the `src/server.js` variant
ignores client options and always uses `0.2` when `isJson` else `0.7`. -/
theorem effective_temperature (req : GenerationRequest)
    (apiA apiB : UpstreamCall → Except JsError UpstreamResponse)
    (hp : truthyStr req.prompt = true) :
    (∀ t : Rat, req.options.bind GenOptions.temperature = some t → t ≠ 0 →
      ((Part000.handleGemini req apiB).1).map (fun c => c.config.temperature)
        = some t)
    ∧ (req.options.bind GenOptions.temperature = none →
      ((Part000.handleGemini req apiB).1).map (fun c => c.config.temperature)
        = some (if req.isJson then 0.2 else 0.7))
    ∧ (req.options.bind GenOptions.temperature = some 0 →
      ((Part000.handleGemini req apiB).1).map (fun c => c.config.temperature)
        = some (if req.isJson then 0.2 else 0.7))
    ∧ ((ServerJs.handleGemini req apiA).1).map (fun c => c.config.temperature)
        = some (if req.isJson then 0.2 else 0.7) := by
  rw [handleGemini_fst_part000 req apiB hp, handleGemini_fst_serverJs req apiA hp]
  refine ⟨?_, ?_, ?_, rfl⟩
  · intro t ht htz
    simp [Part000.buildCall, jsOrNum, ht, htz]
  · intro ht
    simp [Part000.buildCall, jsOrNum, ht]
  · intro ht
    simp [Part000.buildCall, jsOrNum, ht]

/-- Witness for C2 (amended) at a request carrying
`options.temperature = 0.9`. -/
theorem effective_temperature_witness :
    truthyStr reqTemp09.prompt = true
    ∧ reqTemp09.options.bind GenOptions.temperature = some 0.9
    ∧ ((Part000.handleGemini reqTemp09 stubApi).1).map
        (fun c => c.config.temperature) = some 0.9 := by
  have h := effective_temperature reqTemp09 stubApi stubApi (by decide)
  exact ⟨by decide, rfl, h.1 0.9 rfl (by norm_num)⟩

/-- C5: on upstream success both handler variants respond 200 with a body
whose `text` field is exactly the upstream text and no other field set. -/
theorem success_text_verbatim (req : GenerationRequest)
    (apiA apiB : UpstreamCall → Except JsError UpstreamResponse)
    (respA respB : UpstreamResponse)
    (hp : truthyStr req.prompt = true)
    (hA : apiA (ServerJs.buildCall req) = Except.ok respA)
    (hB : apiB (Part000.buildCall req) = Except.ok respB) :
    (ServerJs.handleGemini req apiA).2
      = Except.ok ⟨200, ⟨some respA.text, none, none, none⟩⟩
    ∧ (Part000.handleGemini req apiB).2
      = Except.ok ⟨200, ⟨some respB.text, none, none, none⟩⟩ := by
  constructor
  · unfold ServerJs.handleGemini
    rw [hp]
    simp only [if_true]
    rw [hA]
  · unfold Part000.handleGemini
    rw [hp]
    simp only [if_true]
    rw [hB]

/-- Witness for C5 at a concrete successful upstream response. -/
theorem success_text_verbatim_witness :
    truthyStr reqHello.prompt = true
    ∧ stubApi (ServerJs.buildCall reqHello) = Except.ok ⟨"ok"⟩
    ∧ (ServerJs.handleGemini reqHello stubApi).2
      = Except.ok ⟨200, ⟨some "ok", none, none, none⟩⟩
    ∧ (Part000.handleGemini reqHello stubApi).2
      = Except.ok ⟨200, ⟨some "ok", none, none, none⟩⟩ := by
  have h := success_text_verbatim reqHello stubApi stubApi ⟨"ok"⟩ ⟨"ok"⟩
    (by decide) rfl rfl
  exact ⟨by decide, rfl, h.1, h.2⟩

/-- C6 counterexample: the `src/server.js` variant always passes
`maxOutputTokens = 2048` upstream, so a request with
`options.maxOutputTokens = 1000` does not get `1000`. -/
theorem max_tokens_override_counterexample :
    reqTok1000.options.bind GenOptions.maxOutputTokens = some 1000
    ∧ ((ServerJs.handleGemini reqTok1000 stubApi).1).map
        (fun c => c.config.maxOutputTokens) = some 2048
    ∧ (2048 : Rat) ≠ 1000 :=
  ⟨rfl, rfl, by norm_num⟩

/-- C6 (amended): in the `src/unnamed/part_000` variant the effective
`maxOutputTokens` is the client `options.maxOutputTokens` when present and
truthy and `2048` otherwise; the `src/server.js` variant always passes
`2048`. -/
theorem effective_max_tokens (req : GenerationRequest)
    (apiA apiB : UpstreamCall → Except JsError UpstreamResponse)
    (hp : truthyStr req.prompt = true) :
    (∀ t : Rat, req.options.bind GenOptions.maxOutputTokens = some t → t ≠ 0 →
      ((Part000.handleGemini req apiB).1).map (fun c => c.config.maxOutputTokens)
        = some t)
    ∧ (req.options.bind GenOptions.maxOutputTokens = none →
      ((Part000.handleGemini req apiB).1).map (fun c => c.config.maxOutputTokens)
        = some 2048)
    ∧ (req.options.bind GenOptions.maxOutputTokens = some 0 →
      ((Part000.handleGemini req apiB).1).map (fun c => c.config.maxOutputTokens)
        = some 2048)
    ∧ ((ServerJs.handleGemini req apiA).1).map (fun c => c.config.maxOutputTokens)
        = some 2048 := by
  rw [handleGemini_fst_part000 req apiB hp, handleGemini_fst_serverJs req apiA hp]
  refine ⟨?_, ?_, ?_, rfl⟩
  · intro t ht htz
    simp [Part000.buildCall, jsOrNum, ht, htz]
  · intro ht
    simp [Part000.buildCall, jsOrNum, ht]
  · intro ht
    simp [Part000.buildCall, jsOrNum, ht]

/-- Witness for C6 (amended) at a request carrying
`options.maxOutputTokens = 1000`. -/
theorem effective_max_tokens_witness :
    truthyStr reqTok1000.prompt = true
    ∧ reqTok1000.options.bind GenOptions.maxOutputTokens = some 1000
    ∧ ((Part000.handleGemini reqTok1000 stubApi).1).map
        (fun c => c.config.maxOutputTokens) = some 1000 := by
  have h := effective_max_tokens reqTok1000 stubApi stubApi (by decide)
  exact ⟨by decide, rfl, h.1 1000 rfl (by norm_num)⟩

/-- C10: a client numeric option equal to `0` is treated as absent: with
`options.temperature = 0` both variants pass the computed default
temperature upstream, and with `options.maxOutputTokens = 0` both variants
pass `2048`. -/
theorem zero_option_uses_default (req : GenerationRequest)
    (apiA apiB : UpstreamCall → Except JsError UpstreamResponse)
    (hp : truthyStr req.prompt = true) :
    (req.options.bind GenOptions.temperature = some 0 →
      ((Part000.handleGemini req apiB).1).map (fun c => c.config.temperature)
        = some (if req.isJson then 0.2 else 0.7)
      ∧ ((ServerJs.handleGemini req apiA).1).map (fun c => c.config.temperature)
        = some (if req.isJson then 0.2 else 0.7))
    ∧ (req.options.bind GenOptions.maxOutputTokens = some 0 →
      ((Part000.handleGemini req apiB).1).map (fun c => c.config.maxOutputTokens)
        = some 2048
      ∧ ((ServerJs.handleGemini req apiA).1).map (fun c => c.config.maxOutputTokens)
        = some 2048) := by
  rw [handleGemini_fst_part000 req apiB hp, handleGemini_fst_serverJs req apiA hp]
  constructor
  · intro ht
    exact ⟨by simp [Part000.buildCall, jsOrNum, ht], rfl⟩
  · intro ht
    exact ⟨by simp [Part000.buildCall, jsOrNum, ht], rfl⟩

/-- Witness for C10 at a request with both numeric options set to `0`. -/
theorem zero_option_uses_default_witness :
    truthyStr reqZeroOptions.prompt = true
    ∧ reqZeroOptions.options.bind GenOptions.temperature = some 0
    ∧ reqZeroOptions.options.bind GenOptions.maxOutputTokens = some 0
    ∧ ((Part000.handleGemini reqZeroOptions stubApi).1).map
        (fun c => c.config.temperature) = some 0.7
    ∧ ((Part000.handleGemini reqZeroOptions stubApi).1).map
        (fun c => c.config.maxOutputTokens) = some 2048 := by
  have h := zero_option_uses_default reqZeroOptions stubApi stubApi (by decide)
  exact ⟨by decide, rfl, rfl, (h.1 rfl).1, (h.2 rfl).1⟩

/-- C3 counterexample: when the upstream call rejects with an error whose
`response.data` is truthy but has no `error` field, the `src/server.js`
catch block itself throws a TypeError and no JSON response is sent. -/
theorem handler_throw_counterexample :
    badShapeErr.response = some ⟨none, some ⟨none⟩⟩
    ∧ (ServerJs.handleGemini reqHello apiBadShape).2
      = Except.error "TypeError: cannot read message of undefined"
    ∧ sendsOneResponse (ServerJs.handleGemini reqHello apiBadShape) = false :=
  ⟨rfl, rfl, rfl⟩

/-- C3 (amended): for every request with a non-empty prompt, provided every
upstream error exposes the fields the catch block probes (for
`src/server.js`: a truthy `response.data` carries an `error` field; for
`src/unnamed/part_000`: the error carries a string `message`), exactly one
JSON response is sent, and it is a result body or an error body, never both
and never neither. -/
theorem single_json_response (req : GenerationRequest)
    (apiA apiB : UpstreamCall → Except JsError UpstreamResponse)
    (hp : truthyStr req.prompt = true)
    (hA : ∀ e, apiA (ServerJs.buildCall req) = Except.error e →
      goodShapeA e = true)
    (hB : ∀ e, apiB (Part000.buildCall req) = Except.error e →
      goodShapeB e = true) :
    sendsOneResponse (ServerJs.handleGemini req apiA) = true
    ∧ sendsOneResponse (Part000.handleGemini req apiB) = true := by
  constructor
  · unfold sendsOneResponse ServerJs.handleGemini
    rw [hp]
    simp only [if_true]
    cases hc : apiA (ServerJs.buildCall req) with
    | ok resp => rfl
    | error e =>
      have hg := hA e hc
      obtain ⟨msg, resp⟩ := e
      cases resp with
      | none => rfl
      | some r =>
        obtain ⟨st, dat⟩ := r
        cases dat with
        | none => rfl
        | some d =>
          obtain ⟨derr⟩ := d
          cases derr with
          | none => simp [goodShapeA] at hg
          | some detail => rfl
  · unfold sendsOneResponse Part000.handleGemini
    rw [hp]
    simp only [if_true]
    cases hc : apiB (Part000.buildCall req) with
    | ok resp => rfl
    | error e =>
      have hg := hB e hc
      obtain ⟨msg, resp⟩ := e
      cases msg with
      | none => simp [goodShapeB] at hg
      | some m => rfl

/-- Witness for C3 (amended) at a concrete request whose upstream call
succeeds. -/
theorem single_json_response_witness :
    truthyStr reqHello.prompt = true
    ∧ sendsOneResponse (ServerJs.handleGemini reqHello stubApi) = true
    ∧ sendsOneResponse (Part000.handleGemini reqHello stubApi) = true := by
  have h := single_json_response reqHello stubApi stubApi (by decide)
    (fun e he => Except.noConfusion he) (fun e he => Except.noConfusion he)
  exact ⟨by decide, h.1, h.2⟩

/-- C4 counterexample: on an invalid-API-key failure the client-visible
`error` field of `src/unnamed/part_000` is the sanitized message with the
fixed prefix `Failed to call Gemini API: `, so it is not exactly the string
`API Key is invalid or not authorized.`. -/
theorem sanitized_message_counterexample :
    invalidKeyErr.message
      = some "API key not valid. Please pass a valid API key. API_KEY_INVALID"
    ∧ jsIncludes "API key not valid. Please pass a valid API key. API_KEY_INVALID"
        "API_KEY_INVALID" = true
    ∧ (Part000.handleGemini reqHello apiInvalidKey).2
      = Except.ok ⟨500, sanitizedKeyBody⟩
    ∧ sanitizedKeyBody.error ≠ some "API Key is invalid or not authorized." :=
  ⟨rfl, by decide, rfl, by decide⟩

/-- C4 (amended): in the `src/unnamed/part_000` variant, whenever the
upstream error message contains `API_KEY_INVALID`, the response is exactly
500 with `error` equal to
`Failed to call Gemini API: API Key is invalid or not authorized.` (the
fixed sanitized message behind the fixed prefix), and that client-visible
text never contains the raw upstream error message. -/
theorem sanitized_key_message (req : GenerationRequest)
    (api : UpstreamCall → Except JsError UpstreamResponse)
    (e : JsError) (m : String)
    (hp : truthyStr req.prompt = true)
    (hcall : api (Part000.buildCall req) = Except.error e)
    (hm : e.message = some m)
    (hkey : jsIncludes m "API_KEY_INVALID" = true) :
    (Part000.handleGemini req api).2 = Except.ok ⟨500, sanitizedKeyBody⟩
    ∧ jsIncludes
        "Failed to call Gemini API: API Key is invalid or not authorized."
        m = false := by
  constructor
  · unfold Part000.handleGemini
    rw [hp]
    simp only [if_true]
    rw [hcall]
    dsimp only
    unfold Part000.catchHandler
    rw [hm]
    simp only [hkey, if_true]
    rfl
  · have hkey2 : containsChars ("API_KEY_INVALID").toList m.toList = true := hkey
    have hunder : '_' ∈ m.toList :=
      mem_of_containsChars _ _ hkey2 '_' (by decide)
    unfold jsIncludes
    cases hq : containsChars m.toList
        ("Failed to call Gemini API: API Key is invalid or not authorized.").toList with
    | false => rfl
    | true =>
      have hmem : '_' ∈
          ("Failed to call Gemini API: API Key is invalid or not authorized.").toList :=
        mem_of_containsChars _ _ hq '_' hunder
      exact absurd hmem (by decide)

/-- Witness for C4 (amended) at the concrete invalid-API-key error. -/
theorem sanitized_key_message_witness :
    truthyStr reqHello.prompt = true
    ∧ jsIncludes "API key not valid. Please pass a valid API key. API_KEY_INVALID"
        "API_KEY_INVALID" = true
    ∧ (Part000.handleGemini reqHello apiInvalidKey).2
      = Except.ok ⟨500, sanitizedKeyBody⟩
    ∧ jsIncludes
        "Failed to call Gemini API: API Key is invalid or not authorized."
        "API key not valid. Please pass a valid API key. API_KEY_INVALID"
      = false := by
  have h := sanitized_key_message reqHello apiInvalidKey invalidKeyErr
    "API key not valid. Please pass a valid API key. API_KEY_INVALID"
    (by decide) rfl rfl (by decide)
  exact ⟨by decide, by decide, h.1, h.2⟩

/-- C7 counterexample: the `src/unnamed/part_000` variant responds 500 with
`code` 500 even when the upstream error exposes HTTP status 404 through
`error.response.status`. -/
theorem error_status_counterexample :
    statusErr.response = some ⟨some 404, none⟩
    ∧ respStatus (Part000.handleGemini reqHello apiStatusErr) = some 500
    ∧ respCode (Part000.handleGemini reqHello apiStatusErr) = some 500
    ∧ (500 : Nat) ≠ 404 :=
  ⟨rfl, rfl, rfl, by decide⟩

/-- C7 (amended): the `src/server.js` variant responds with the status
recovered from `error.response.status` when that field is present and
truthy and with 500 otherwise, the body `code` equal to the status in both
cases; the `src/unnamed/part_000` variant always responds 500 with `code`
500. -/
theorem error_status_amended (req : GenerationRequest)
    (apiA apiB : UpstreamCall → Except JsError UpstreamResponse)
    (e eB : JsError)
    (hp : truthyStr req.prompt = true)
    (hA : apiA (ServerJs.buildCall req) = Except.error e)
    (hgood : goodShapeA e = true)
    (hB : apiB (Part000.buildCall req) = Except.error eB)
    (hmB : eB.message.isSome = true) :
    (∀ r n, e.response = some r → r.status = some n → n ≠ 0 →
      respStatus (ServerJs.handleGemini req apiA) = some n
      ∧ respCode (ServerJs.handleGemini req apiA) = some n)
    ∧ (statusTruthy e = false →
      respStatus (ServerJs.handleGemini req apiA) = some 500
      ∧ respCode (ServerJs.handleGemini req apiA) = some 500)
    ∧ respStatus (Part000.handleGemini req apiB) = some 500
    ∧ respCode (Part000.handleGemini req apiB) = some 500 := by
  have hred : (ServerJs.handleGemini req apiA).2 = ServerJs.catchHandler e := by
    unfold ServerJs.handleGemini
    rw [hp]
    simp only [if_true]
    rw [hA]
  have hredB : (Part000.handleGemini req apiB).2 = Part000.catchHandler eB := by
    unfold Part000.handleGemini
    rw [hp]
    simp only [if_true]
    rw [hB]
  have hB500 : respStatus (Part000.handleGemini req apiB) = some 500
      ∧ respCode (Part000.handleGemini req apiB) = some 500 := by
    unfold respStatus respCode
    rw [hredB]
    obtain ⟨msgB, respB⟩ := eB
    cases msgB with
    | none => simp [goodShapeB] at hmB
    | some mB => exact ⟨rfl, rfl⟩
  refine ⟨?_, ?_, hB500.1, hB500.2⟩
  · intro r n hr hn hnz
    unfold respStatus respCode
    rw [hred]
    obtain ⟨msg, resp⟩ := e
    have hr2 : resp = some r := hr
    subst hr2
    obtain ⟨st, dat⟩ := r
    have hn2 : st = some n := hn
    subst hn2
    have hg : goodShapeA ⟨msg, some ⟨some n, dat⟩⟩ = true := hgood
    cases dat with
    | none =>
      constructor <;> simp [ServerJs.catchHandler, beq_iff_eq, hnz]
    | some d =>
      obtain ⟨derr⟩ := d
      cases derr with
      | none => simp [goodShapeA] at hg
      | some detail =>
        constructor <;> simp [ServerJs.catchHandler, beq_iff_eq, hnz]
  · intro hst
    unfold respStatus respCode
    rw [hred]
    obtain ⟨msg, resp⟩ := e
    have hg : goodShapeA ⟨msg, resp⟩ = true := hgood
    cases resp with
    | none => exact ⟨rfl, rfl⟩
    | some r0 =>
      obtain ⟨st, dat⟩ := r0
      cases st with
      | none =>
        cases dat with
        | none => exact ⟨rfl, rfl⟩
        | some d =>
          obtain ⟨derr⟩ := d
          cases derr with
          | none => simp [goodShapeA] at hg
          | some detail => exact ⟨rfl, rfl⟩
      | some n =>
        have hn0 : n = 0 := by
          have := hst
          simp only [statusTruthy, Bool.not_eq_true] at this
          simpa [beq_iff_eq] using this
        subst hn0
        cases dat with
        | none =>
          constructor <;> simp [ServerJs.catchHandler]
        | some d =>
          obtain ⟨derr⟩ := d
          cases derr with
          | none => simp [goodShapeA] at hg
          | some detail =>
            constructor <;> simp [ServerJs.catchHandler]

/-- Witness for C7 (amended) at an upstream error exposing status 404. -/
theorem error_status_amended_witness :
    truthyStr reqHello.prompt = true
    ∧ goodShapeA statusErr = true
    ∧ statusErr.response = some ⟨some 404, none⟩
    ∧ respStatus (ServerJs.handleGemini reqHello apiStatusErr) = some 404
    ∧ respCode (ServerJs.handleGemini reqHello apiStatusErr) = some 404
    ∧ respStatus (Part000.handleGemini reqHello apiStatusErr) = some 500
    ∧ respCode (Part000.handleGemini reqHello apiStatusErr) = some 500 := by
  have h := error_status_amended reqHello apiStatusErr apiStatusErr statusErr
    statusErr (by decide) rfl (by decide) rfl (by decide)
  have h1 := h.1 ⟨some 404, none⟩ 404 rfl rfl (by decide)
  exact ⟨by decide, by decide, rfl, h1.1, h1.2, h.2.2.1, h.2.2.2⟩

/-- C8 counterexample: with `GEMINI_API_KEY` set to the empty string the
variable is set, yet the process exits with code 1 and does not listen. -/
theorem startup_empty_key_counterexample :
    (ProcessEnv.mk none (some "")).geminiApiKey.isSome = true
    ∧ startup ⟨none, some ""⟩ = StartOutcome.exit 1 fatalDiagnostics
    ∧ (startup ⟨none, some ""⟩).isListening = false :=
  ⟨rfl, rfl, rfl⟩

/-- C8 (amended): when `GEMINI_API_KEY` is unset or empty the process exits
with the non-zero code 1 after printing the non-empty diagnostics, before
binding any listening port; when it is set to a non-empty value the process
proceeds to listen on `PORT || 3000`. -/
theorem startup_guard (env : ProcessEnv) :
    (truthyStr env.geminiApiKey = false →
      startup env = StartOutcome.exit 1 fatalDiagnostics
      ∧ (1 : Nat) ≠ 0 ∧ fatalDiagnostics ≠ [])
    ∧ (truthyStr env.geminiApiKey = true →
      startup env = StartOutcome.listen (jsOrOptStr env.port "3000")
      ∧ (startup env).isListening = true) := by
  constructor
  · intro h
    refine ⟨?_, by decide, by decide⟩
    unfold startup
    rw [h]
    rfl
  · intro h
    have hs : startup env = StartOutcome.listen (jsOrOptStr env.port "3000") := by
      unfold startup
      rw [h]
      rfl
    exact ⟨hs, by rw [hs]; rfl⟩

/-- Witness for C8 (amended): an unset key exits, a non-empty key listens. -/
theorem startup_guard_witness :
    truthyStr (ProcessEnv.mk none none).geminiApiKey = false
    ∧ startup ⟨none, none⟩ = StartOutcome.exit 1 fatalDiagnostics
    ∧ truthyStr (ProcessEnv.mk none (some "secret")).geminiApiKey = true
    ∧ (startup ⟨none, some "secret"⟩).isListening = true := by
  refine ⟨by decide, ((startup_guard ⟨none, none⟩).1 (by decide)).1,
    by decide, ((startup_guard ⟨none, some "secret"⟩).2 (by decide)).2⟩

/-- C9 counterexample: under the `src/unnamed/part_000` rate-limiter
configuration the 101st same-window request is rejected with a message body
that is not the one the claim states. -/
theorem rate_limit_message_counterexample :
    Part000.gatedHandle 100 reqHello stubApi
      = (none, Except.ok ⟨429,
          ⟨none,
           some "Too many requests, please try again later. (Proxy Rate Limit)",
           none, none⟩⟩)
    ∧ (some "Too many requests, please try again later. (Proxy Rate Limit)"
        : Option String)
      ≠ some "Too many requests, please try again later." :=
  ⟨rfl, by decide⟩

/-- C9 (amended): with 100 prior same-window requests from the same IP, the
next request is rejected with status 429 and the variant-specific configured
message body, and no upstream call is made: exactly
`{ error: "Too many requests, please try again later." }` for
`src/server.js`, and the same text with ` (Proxy Rate Limit)` appended for
`src/unnamed/part_000`. -/
theorem rate_limit_101st (req : GenerationRequest)
    (apiA apiB : UpstreamCall → Except JsError UpstreamResponse) :
    ServerJs.apiLimiter.max = 100
    ∧ ServerJs.apiLimiter.windowMs = 15 * 60 * 1000
    ∧ ServerJs.gatedHandle 100 req apiA
      = (none, Except.ok ⟨429,
          ⟨none, some "Too many requests, please try again later.",
           none, none⟩⟩)
    ∧ Part000.gatedHandle 100 req apiB
      = (none, Except.ok ⟨429,
          ⟨none,
           some "Too many requests, please try again later. (Proxy Rate Limit)",
           none, none⟩⟩) :=
  ⟨rfl, rfl, rfl, rfl⟩
